import Mathlib

/-!
Verification of the scoring / trend / domain-classification core of the
career-counsellor application (`src/api.py`).

The shallow embedding below translates the deterministic business logic of
the source file:
  * `get_trend` (api.py lines 68-76): two-point trend classification;
  * the subject-list derivation and per-subject score extraction inside
    `career_guidance_node` (api.py lines 62-80);
  * the prompt construction (api.py lines 82-95) and the try/except wrapper
    of `career_guidance_node` (api.py lines 56-104), with the external Groq
    call modelled as an opaque fallible collaborator;
  * `domain_map`, `domain_scores` and `top_domain` of the questionnaire
    page (api.py lines 303-313).

Python dictionaries with string keys and integer values (the test rows of
type `List[Dict[str, int]]` declared by `CounsellorState`) are modelled as
association lists `List (String × Int)` in insertion order; survey
responses `Q1..Q31 ↦ int` are modelled as a function `Nat → Int` on the
question number.
-/

namespace CareerCounsellor

/-- `get_trend` from api.py (lines 68-76): `"Not enough data"` for fewer
than two scores, otherwise compares `scores[-1]` with `scores[0]`.
The spec calls the first result `InsufficientData`. -/
def get_trend (scores : List Int) : String :=
  if scores.length < 2 then "Not enough data"
  else if scores.getLastD 0 > scores.headD 0 then "Improving"
  else if scores.getLastD 0 < scores.headD 0 then "Declining"
  else "Stable"

/-- C1: for sequences of length at least 2 the trend is a function of the
first and last element alone: `Improving` iff last > first, `Declining`
iff last < first, `Stable` iff they are equal.  Elements strictly between
first and last therefore never affect the result. -/
theorem trend_compares_first_and_last (scores : List Int) (h : 2 ≤ scores.length) :
    (get_trend scores = "Improving" ↔ scores.headD 0 < scores.getLastD 0) ∧
    (get_trend scores = "Declining" ↔ scores.getLastD 0 < scores.headD 0) ∧
    (get_trend scores = "Stable" ↔ scores.headD 0 = scores.getLastD 0) := by
  have hn : ¬ scores.length < 2 := by omega
  rcases lt_trichotomy (scores.headD 0) (scores.getLastD 0) with hlt | heq | hgt
  · have h1 : scores.getLastD 0 > scores.headD 0 := hlt
    simp only [get_trend, if_neg hn, if_pos h1]
    refine ⟨⟨fun _ => hlt, fun _ => trivial⟩, ⟨fun hc => ?_, fun hc => ?_⟩,
      ⟨fun hc => ?_, fun hc => ?_⟩⟩
    · exact absurd hc (by decide)
    · omega
    · exact absurd hc (by decide)
    · omega
  · have h1 : ¬ scores.getLastD 0 > scores.headD 0 := by omega
    have h2 : ¬ scores.getLastD 0 < scores.headD 0 := by omega
    simp only [get_trend, if_neg hn, if_neg h1, if_neg h2]
    refine ⟨⟨fun hc => ?_, fun hc => ?_⟩, ⟨fun hc => ?_, fun hc => ?_⟩,
      ⟨fun _ => heq, fun _ => trivial⟩⟩
    · exact absurd hc (by decide)
    · omega
    · exact absurd hc (by decide)
    · omega
  · have h1 : ¬ scores.getLastD 0 > scores.headD 0 := by omega
    have h2 : scores.getLastD 0 < scores.headD 0 := hgt
    simp only [get_trend, if_neg hn, if_neg h1, if_pos h2]
    refine ⟨⟨fun hc => ?_, fun hc => ?_⟩, ⟨fun _ => hgt, fun _ => trivial⟩,
      ⟨fun hc => ?_, fun hc => ?_⟩⟩
    · exact absurd hc (by decide)
    · omega
    · exact absurd hc (by decide)
    · omega

/-- Witness for C1 at the spec regression input `[50, 90, 10]`: only
first = 50 and last = 10 matter, so the trend is `Declining` despite the
spike to 90 in the middle. -/
theorem trend_compares_first_and_last_witness :
    get_trend [50, 90, 10] = "Declining" :=
  ((trend_compares_first_and_last [50, 90, 10] (by decide)).2.1).mpr (by decide)

/-- C2: every score sequence of length < 2 (the empty sequence and every
singleton) classifies as `InsufficientData` (the source string
`"Not enough data"`), a valid result rather than an error. -/
theorem trend_insufficient_data (scores : List Int) (h : scores.length < 2) :
    get_trend scores = "Not enough data" := by
  simp [get_trend, h]

/-- Witness for C2 at the empty sequence. -/
theorem trend_insufficient_data_witness :
    get_trend ([] : List Int) = "Not enough data" :=
  trend_insufficient_data [] (by decide)

end CareerCounsellor

namespace CareerCounsellor

/-- `domain_map` from api.py (lines 303-310): each domain name paired with
the question numbers (`i` standing for key `"Qi"`) that contribute to its
score, in source order. -/
def domain_map : List (String × List Nat) :=
  [("Engineering & Technology", [1, 3, 8, 11, 22]),
   ("Research & Science", [2, 7, 12, 23, 26]),
   ("Medical & Life Sciences", [4, 9, 13, 21, 24]),
   ("Arts & Design", [5, 10, 14, 20, 29]),
   ("Business & Management", [15, 17, 19, 27, 30]),
   ("Law & Public Services", [6, 16, 25, 28, 31])]

/-- `domain_scores` from api.py (line 312): for each domain of
`domain_map`, the sum of the responses to its question numbers. -/
def domain_scores (responses : Nat → Int) : List (String × Int) :=
  domain_map.map (fun p => (p.1, (p.2.map responses).sum))

/-- Left fold of Python `max` with a key function: the running best is
replaced only when a later value is strictly greater, so the first
maximum wins. -/
def maxRun (best : String × Int) : List (String × Int) → String × Int
  | [] => best
  | x :: xs => maxRun (if x.2 > best.2 then x else best) xs

/-- `max(d, key=d.get)` over an association list in key-insertion order
(api.py line 313); Python raises on an empty sequence, which never occurs
here since `domain_map` is non-empty. -/
def max_by_score : List (String × Int) → String
  | [] => ""
  | p :: ps => (maxRun p ps).1

/-- `top_domain` from api.py (line 313). -/
def top_domain (responses : Nat → Int) : String :=
  max_by_score (domain_scores responses)

/-- The 31 question numbers `Q1..Q31` of the questionnaire. -/
def questionIds : List Nat := (List.range 31).map (· + 1)

/-- Whether question `i` contributes to at least one domain of `domain_map`. -/
def coveredByDomain (i : Nat) : Bool :=
  domain_map.any (fun p => p.2.contains i)

/-- The number of domains of `domain_map` whose question set contains `i`. -/
def domainCount (i : Nat) : Nat :=
  (domain_map.filter (fun p => p.2.contains i)).length

lemma maxRun_mem (l : List (String × Int)) :
    ∀ best, maxRun best l = best ∨ maxRun best l ∈ l := by
  induction l with
  | nil => intro best; left; rfl
  | cons x xs ih =>
    intro best
    simp only [maxRun]
    rcases ih (if x.2 > best.2 then x else best) with h | h
    · rw [h]
      by_cases hc : x.2 > best.2
      · right; rw [if_pos hc]; exact List.mem_cons_self x xs
      · left; rw [if_neg hc]
    · right; exact List.mem_cons_of_mem x h

lemma maxRun_ge (l : List (String × Int)) :
    ∀ best, best.2 ≤ (maxRun best l).2 ∧ ∀ x ∈ l, x.2 ≤ (maxRun best l).2 := by
  induction l with
  | nil =>
    intro best
    exact ⟨le_refl _, by intro x hx; cases hx⟩
  | cons x xs ih =>
    intro best
    obtain ⟨hb, hall⟩ := ih (if x.2 > best.2 then x else best)
    have hbest : best.2 ≤ (if x.2 > best.2 then x else best).2 := by
      by_cases hc : x.2 > best.2
      · rw [if_pos hc]; omega
      · rw [if_neg hc]
    have hx : x.2 ≤ (if x.2 > best.2 then x else best).2 := by
      by_cases hc : x.2 > best.2
      · rw [if_pos hc]
      · rw [if_neg hc]; omega
    refine ⟨le_trans hbest hb, ?_⟩
    intro y hy
    rcases List.mem_cons.mp hy with hy | hy
    · subst hy; exact le_trans hx hb
    · exact hall y hy

lemma max_by_score_spec (l : List (String × Int)) (hl : l ≠ []) :
    ∃ s, (max_by_score l, s) ∈ l ∧ ∀ q ∈ l, q.2 ≤ s := by
  cases l with
  | nil => exact absurd rfl hl
  | cons p ps =>
    obtain ⟨hb, hall⟩ := maxRun_ge ps p
    refine ⟨(maxRun p ps).2, ?_, ?_⟩
    · have heta : ((maxRun p ps).1, (maxRun p ps).2) = maxRun p ps := rfl
      rw [max_by_score, heta]
      rcases maxRun_mem ps p with h | h
      · rw [h]; exact List.mem_cons_self p ps
      · exact List.mem_cons_of_mem p h
    · intro q hq
      rcases List.mem_cons.mp hq with hq | hq
      · subst hq; exact hb
      · exact hall q hq

/-- C3: for every survey response assigning an integer in `[1,5]` to each
of `Q1..Q31`, each domain's score is the sum of the responses to its
question numbers (definition `domain_scores`), and `top_domain` is a
domain whose score is at least every other domain's score. -/
theorem top_domain_is_max (responses : Nat → Int)
    (h : ∀ i ∈ questionIds, 1 ≤ responses i ∧ responses i ≤ 5) :
    ∃ s, (top_domain responses, s) ∈ domain_scores responses ∧
      ∀ p ∈ domain_scores responses, p.2 ≤ s :=
  max_by_score_spec (domain_scores responses) (by simp [domain_scores, domain_map])

/-- Witness for C3 at the all-3 response vector. -/
theorem top_domain_is_max_witness :
    ∃ s, (top_domain (fun _ => 3), s) ∈ domain_scores (fun _ => 3) ∧
      ∀ p ∈ domain_scores (fun _ => 3), p.2 ≤ s :=
  top_domain_is_max (fun _ => 3) (by decide)

/-- C4: when `Q1, Q3, Q8, Q11, Q22` are all 5 and every other response is 1,
the classifier returns `"Engineering & Technology"` (its sum is 25, every
other domain sums to 5). -/
theorem top_domain_engineering_example :
    top_domain (fun i => if [1, 3, 8, 11, 22].contains i then 5 else 1) =
      "Engineering & Technology" := by
  decide

end CareerCounsellor

namespace CareerCounsellor

/-- Counterexample for C6: question `Q18` is one of the 31 question
identifiers, yet it appears in no domain's question set of `domain_map`,
so the six sets do not cover all of `Q1..Q31`. -/
theorem domain_map_misses_q18 :
    18 ∈ questionIds ∧ coveredByDomain 18 = false := by
  decide

/-- C6 (amended): in `domain_map` the six question sets are pairwise
disjoint and cover every question identifier `Q1..Q31` except `Q18`:
each `i ∈ Q1..Q31` other than 18 belongs to exactly one domain, and 18
belongs to none. -/
theorem domain_map_partitions_all_but_q18 :
    ∀ i ∈ questionIds, domainCount i = if i = 18 then 0 else 1 := by
  decide

/-- Witness for the amended C6 at `Q22` (one domain) and, via the
counterexample theorem, `Q18` would give zero. -/
theorem domain_map_partitions_all_but_q18_witness :
    domainCount 22 = if 22 = 18 then 0 else 1 :=
  domain_map_partitions_all_but_q18 22 (by decide)

/-- C10: the response to `Q18` is dead input: two response maps that agree
everywhere except possibly at 18 yield identical per-domain scores and the
same winning domain, because 18 occurs in no question set of `domain_map`. -/
theorem q18_is_dead_input (r1 r2 : Nat → Int)
    (h : ∀ i, i ≠ 18 → r1 i = r2 i) :
    domain_scores r1 = domain_scores r2 ∧ top_domain r1 = top_domain r2 := by
  have hds : domain_scores r1 = domain_scores r2 := by
    simp only [domain_scores, domain_map, List.map_cons, List.map_nil,
      List.sum_cons, List.sum_nil]
    rw [h 1 (by decide), h 3 (by decide), h 8 (by decide), h 11 (by decide),
      h 22 (by decide), h 2 (by decide), h 7 (by decide), h 12 (by decide),
      h 23 (by decide), h 26 (by decide), h 4 (by decide), h 9 (by decide),
      h 13 (by decide), h 21 (by decide), h 24 (by decide), h 5 (by decide),
      h 10 (by decide), h 14 (by decide), h 20 (by decide), h 29 (by decide),
      h 15 (by decide), h 17 (by decide), h 19 (by decide), h 27 (by decide),
      h 30 (by decide), h 6 (by decide), h 16 (by decide), h 25 (by decide),
      h 28 (by decide), h 31 (by decide)]
  exact ⟨hds, by simp only [top_domain, hds]⟩

/-- Witness for C10: flipping only the `Q18` response from 3 to 5 changes
neither the per-domain scores nor the winning domain. -/
theorem q18_is_dead_input_witness :
    domain_scores (fun _ => 3) = domain_scores (fun i => if i = 18 then 5 else 3) ∧
    top_domain (fun _ => 3) = top_domain (fun i => if i = 18 then 5 else 3) :=
  q18_is_dead_input (fun _ => 3) (fun i => if i = 18 then 5 else 3)
    (fun i hi => by simp [hi])

end CareerCounsellor

namespace CareerCounsellor

/-- `CounsellorState` from api.py (lines 49-54); a test row
(`Dict[str, int]`) is an association list in insertion order. -/
structure CounsellorState where
  student_name : String
  test_scores : List (List (String × Int))
  state : String
  requirement : String
  guidance_text : String

/-- First-match association lookup, the value `t[k]` of a Python dict when
the key is present. -/
def lookup (t : List (String × Int)) (k : String) : Option Int :=
  match t with
  | [] => none
  | p :: ps => if p.1 = k then some p.2 else lookup ps k

/-- `t.keys()` of a Python dict row. -/
def keys (t : List (String × Int)) : List String :=
  t.map Prod.fst

/-- Python membership test `k in t` on a dict row. -/
def has_key (t : List (String × Int)) (k : String) : Bool :=
  (lookup t k).isSome

/-- Subject-list derivation of api.py (lines 63-66): the keys of the first
test row (empty list when there are no rows), with the bookkeeping keys
`"class"` and `"date_entered"` filtered out. -/
def subjectsOf (rows : List (List (String × Int))) : List String :=
  (match rows with
   | [] => []
   | t :: _ => keys t).filter (fun s => !(s == "class" || s == "date_entered"))

/-- The comprehension `[t[sub] for t in state["test_scores"] if sub in t]`
of api.py (line 79): rows lacking the subject key are skipped, and the
guarded index is total on the remaining rows (`getD 0` is never the
default, see `sub_scores_never_raises`). -/
def sub_scores (sub : String) (rows : List (List (String × Int))) : List Int :=
  (rows.filter (fun t => has_key t sub)).map (fun t => (lookup t sub).getD 0)

/-- Python indexing `t[sub]` as a fallible operation: `KeyError` when the
key is absent. -/
def pyIndex (t : List (String × Int)) (k : String) : Except String Int :=
  match lookup t k with
  | some v => Except.ok v
  | none => Except.error ("KeyError: " ++ k)

/-- The same comprehension with the raising semantics of `t[sub]` made
explicit: evaluate rows left to right, keep rows passing the `sub in t`
guard, and index each kept row, propagating a `KeyError` if one occurred. -/
def sub_scoresChecked (sub : String) :
    List (List (String × Int)) → Except String (List Int)
  | [] => Except.ok []
  | t :: rows =>
    if has_key t sub then
      match pyIndex t sub, sub_scoresChecked sub rows with
      | Except.ok v, Except.ok vs => Except.ok (v :: vs)
      | Except.error e, _ => Except.error e
      | _, Except.error e => Except.error e
    else sub_scoresChecked sub rows

/-- The per-subject trends dict of api.py (lines 62, 78-80), in subject
order. -/
def trendsOf (rows : List (List (String × Int))) : List (String × String) :=
  (subjectsOf rows).map (fun sub => (sub, get_trend (sub_scores sub rows)))

/-- Python `repr` of one test row (a dict with string keys and int
values), as interpolated by the f-string of api.py (line 84). -/
def reprRecord (t : List (String × Int)) : String :=
  "\x7b" ++ String.intercalate ", "
    (t.map (fun p => "\x27" ++ p.1 ++ "\x27: " ++ toString p.2)) ++ "\x7d"

/-- Python `repr` of the test-score list. -/
def reprRecords (rows : List (List (String × Int))) : String :=
  "[" ++ String.intercalate ", " (rows.map reprRecord) ++ "]"

/-- Python `repr` of the trends dict (string keys and string values). -/
def reprTrends (tr : List (String × String)) : String :=
  "\x7b" ++ String.intercalate ", "
    (tr.map (fun p => "\x27" ++ p.1 ++ "\x27: \x27" ++ p.2 ++ "\x27")) ++ "\x7d"

/-- The prompt f-string of api.py (lines 82-95), built from the student
name, the test-score rows, the derived trends, the state and the career
interest. -/
def build_prompt (s : CounsellorState) : String :=
  "\nThe student named " ++ s.student_name ++ " has these academic details:\n"
  ++ "- Test Scores: " ++ reprRecords s.test_scores ++ "\n"
  ++ "- Trends: " ++ reprTrends (trendsOf s.test_scores) ++ "\n"
  ++ "- State: " ++ s.state ++ "\n"
  ++ "- Career Interest: " ++ s.requirement ++ "\n\n"
  ++ "Provide:\n"
  ++ "1. Personalized career guidance with improvement areas and clear action steps.\n"
  ++ "2. Mention each subject\x27s trend and what it means.\n"
  ++ "3. Markdown table of 10 best Bachelor\x27s degree colleges nearer to the location given by the user only (with location, program mentioned, entrance & eligibility, speciality of each college).\n"
  ++ "4. Markdown table of 5 best Master\x27s programs (if applicable, same specs).\n"
  ++ "5. End with a motivational summary.\n"

/-- A Python exception as observed by the handler of api.py (line 104):
its `str(e)` rendering and its `traceback.format_exc()` text. -/
structure PyExc where
  msg : String
  tb : String

/-- The literal prefix of the error text produced by the `except` branch
of `career_guidance_node` (api.py line 104). -/
def error_marker : String := "⚠️ Error fetching AI guidance: "

/-- `career_guidance_node` from api.py (lines 56-104): builds the prompt,
hands it to the external Groq collaborator (modelled as an opaque fallible
function `generate`), and on success stores the stripped reply in
`guidance_text`; on any failure it stores the error text
`f"⚠️ Error fetching AI guidance: \x7bstr(e)\x7d\n\n\x7btraceback.format_exc()\x7d"`
instead of raising. -/
def career_guidance_node (generate : String → Except PyExc String)
    (s : CounsellorState) : CounsellorState :=
  match generate (build_prompt s) with
  | Except.ok output => { s with guidance_text := output.trim }
  | Except.error e =>
    { s with guidance_text := error_marker ++ (e.msg ++ ("\n\n" ++ e.tb)) }

end CareerCounsellor

namespace CareerCounsellor

/-- A concrete state used by the witnesses: two test rows with bookkeeping
keys, the second row missing the `"Science"` subject. -/
def exState : CounsellorState :=
  { student_name := "Asha"
    test_scores := [[("class", 10), ("date_entered", 20240101), ("Maths", 50), ("Science", 70)],
                    [("class", 10), ("date_entered", 20240102), ("Maths", 60)]]
    state := "Tamil Nadu"
    requirement := "Engineer"
    guidance_text := "" }

/-- C5: whenever the external collaborator fails on the built prompt, the
node still returns a state whose `guidance_text` is a non-empty string
beginning with the error marker, instead of propagating the exception. -/
theorem guidance_node_error_is_marked_string
    (generate : String → Except PyExc String) (s : CounsellorState) (e : PyExc)
    (h : generate (build_prompt s) = Except.error e) :
    (career_guidance_node generate s).guidance_text ≠ "" ∧
    ∃ rest, (career_guidance_node generate s).guidance_text = error_marker ++ rest := by
  have hg : (career_guidance_node generate s).guidance_text
      = error_marker ++ (e.msg ++ ("\n\n" ++ e.tb)) := by
    simp [career_guidance_node, h]
  refine ⟨?_, ⟨e.msg ++ ("\n\n" ++ e.tb), hg⟩⟩
  rw [hg]
  intro hc
  have hl := congrArg String.length hc
  rw [String.length_append] at hl
  have h1 : 0 < error_marker.length := by decide
  have h0 : ("" : String).length = 0 := rfl
  omega

/-- Witness for C5: a collaborator that always times out still yields a
marked, non-empty guidance string. -/
theorem guidance_node_error_is_marked_string_witness :
    (career_guidance_node (fun _ => Except.error ⟨"Request timed out.", "Traceback: ..."⟩)
        exState).guidance_text ≠ "" ∧
    ∃ rest, (career_guidance_node (fun _ => Except.error ⟨"Request timed out.", "Traceback: ..."⟩)
        exState).guidance_text = error_marker ++ rest :=
  guidance_node_error_is_marked_string _ exState ⟨"Request timed out.", "Traceback: ..."⟩ rfl

/-- C7: prompt construction is deterministic, a pure function of the
student name, the test-score history, the state and the requirement; in
particular the `guidance_text` field is irrelevant to it. -/
theorem build_prompt_deterministic (s1 s2 : CounsellorState)
    (h1 : s1.student_name = s2.student_name)
    (h2 : s1.test_scores = s2.test_scores)
    (h3 : s1.state = s2.state)
    (h4 : s1.requirement = s2.requirement) :
    build_prompt s1 = build_prompt s2 := by
  simp only [build_prompt, h1, h2, h3, h4]

/-- Witness for C7: two states identical except for a pre-existing
`guidance_text` produce the same prompt. -/
theorem build_prompt_deterministic_witness :
    build_prompt exState = build_prompt { exState with guidance_text := "previous run" } :=
  build_prompt_deterministic _ _ rfl rfl rfl rfl

/-- C8: the subject list excludes the bookkeeping keys `"class"` and
`"date_entered"` even when present; for an empty history it is empty, and
for a non-empty history it consists exactly of the non-bookkeeping keys of
the first row. -/
theorem subjects_exclude_bookkeeping (rows : List (List (String × Int))) :
    "class" ∉ subjectsOf rows ∧ "date_entered" ∉ subjectsOf rows ∧
    (rows = [] → subjectsOf rows = []) ∧
    ∀ t rest s, rows = t :: rest →
      (s ∈ subjectsOf rows ↔ s ∈ keys t ∧ s ≠ "class" ∧ s ≠ "date_entered") := by
  cases rows with
  | nil =>
    refine ⟨by simp [subjectsOf], by simp [subjectsOf], fun _ => by simp [subjectsOf], ?_⟩
    intro t rest s hcontra
    exact absurd hcontra (by simp)
  | cons t0 rest0 =>
    have hmem : ∀ s : String, s ∈ subjectsOf (t0 :: rest0) ↔
        s ∈ keys t0 ∧ s ≠ "class" ∧ s ≠ "date_entered" := by
      intro s
      simp [subjectsOf, List.mem_filter, not_or, and_assoc]
    refine ⟨?_, ?_, ?_, ?_⟩
    · intro hc; exact ((hmem "class").mp hc).2.1 rfl
    · intro hc; exact ((hmem "date_entered").mp hc).2.2 rfl
    · intro hcontra; exact absurd hcontra (by simp)
    · intro t rest s heq
      injection heq with ht hr
      subst ht
      exact hmem s

/-- Witness for C8: on the first row of `exState`, `"class"` is excluded
while `"Maths"` survives. -/
theorem subjects_exclude_bookkeeping_witness :
    "class" ∉ subjectsOf exState.test_scores ∧
    "Maths" ∈ subjectsOf exState.test_scores :=
  ⟨(subjects_exclude_bookkeeping exState.test_scores).1,
   ((subjects_exclude_bookkeeping exState.test_scores).2.2.2 _ _ "Maths" rfl).mpr
     (by decide)⟩

/-- C9: extracting a subject's scores never raises: evaluating the
comprehension with the raising semantics of `t[sub]` made explicit always
succeeds, returning exactly the scores of the rows that contain the
subject key (rows missing the key are skipped). -/
theorem sub_scores_never_raises (sub : String) (rows : List (List (String × Int))) :
    sub_scoresChecked sub rows = Except.ok (sub_scores sub rows) := by
  induction rows with
  | nil => rfl
  | cons t rows ih =>
    by_cases hc : has_key t sub = true
    · have hv : ∃ v, lookup t sub = some v := by
        have hc2 := hc
        unfold has_key at hc2
        exact Option.isSome_iff_exists.mp hc2
      obtain ⟨v, hv⟩ := hv
      simp [sub_scoresChecked, sub_scores, List.filter_cons, hc, pyIndex, hv, ih]
    · simp [sub_scoresChecked, sub_scores, List.filter_cons, hc, ih]

end CareerCounsellor
